import Mathlib

/-!
Shallow embedding of `ez-spdy` (src/src/index.js): the certificate
resolution and bootstrap helper `EzSpdy`, together with the deferred
(`Pact`) settle semantics it relies on.

Modelling conventions:
* JavaScript dynamic values that flow into the `port` variable are modelled
  by `JSVal` (a number, a string read from the process environment, or
  `undefined`); JavaScript strict equality `===` is Lean equality on `JSVal`.
* `process.env` entries are `Option String`; an absent variable is `none`
  and JavaScript truthiness of a present value is "non-empty string".
* The filesystem (`fs.existsSync`, `fs.readFileSync`) is an explicit input
  record of pure functions; `path.resolve` is modelled as the identity,
  i.e. paths are taken to be already resolved.
* `new RegExp(pattern, "i")` followed by `.test(s)` is modelled by a small
  case-insensitive unanchored matcher over the fragment of JavaScript
  regular expressions the program exercises: literal characters, the `.`
  wildcard, and (transparent, non-capturing in effect) grouping
  parentheses.  Patterns using other metacharacters — quantifiers,
  alternation, anchors, character classes, escapes — are outside the
  modelled fragment and compilation returns `none`, which at the call
  site models `new RegExp` throwing (as JavaScript itself does for an
  invalid pattern such as an unterminated character class).
* The native `Promise` resolve/reject pair captured by `Pact` is modelled
  as a one-shot state machine `DeferredState` with explicit `resolve` /
  `reject` transitions.
-/

/-- A JavaScript value as it can appear in the `port` variable of `EzSpdy`:
a number literal, a string (e.g. read from the environment), or
`undefined` (a missing `opts.port` field). -/
inductive JSVal where
  | num (n : Int)
  | str (s : String)
  | undef
deriving DecidableEq

/-- An atom of the modelled regular-expression fragment: a literal
character (compared case-insensitively) or the `.` wildcard. -/
inductive RAtom where
  | lit (c : Char)
  | dot
deriving DecidableEq

/-- Characters the modelled regular-expression fragment does not cover
(quantifiers, alternation, character classes, escapes, anchors); a pattern
containing one fails to compile in the model. -/
def regexUnsupported (c : Char) : Bool :=
  c = '*' || c = '+' || c = '?' || c = '|' || c = '[' || c = ']' ||
  c = '\\' || c = '^' || c = '$'

/-- Compile the characters of a pattern, tracking the parenthesis nesting
depth; grouping parentheses are transparent (they only group, the program
never quantifies a group), `.` becomes the wildcard, any other supported
character is a literal.  Returns `none` on unbalanced parentheses or an
unsupported metacharacter. -/
def compileChars : List Char → Nat → Option (List RAtom)
  | [], 0 => some []
  | [], _ + 1 => none
  | c :: rest, depth =>
    if c = '(' then compileChars rest (depth + 1)
    else if c = ')' then
      match depth with
      | 0 => none
      | d + 1 => compileChars rest d
    else if c = '.' then (compileChars rest depth).map (fun p => RAtom.dot :: p)
    else if regexUnsupported c then none
    else (compileChars rest depth).map (fun p => RAtom.lit c :: p)

/-- Model of `new RegExp(pattern, "i")`: `none` models the constructor
throwing on a pattern outside the modelled fragment. -/
def compileRegex (pattern : String) : Option (List RAtom) :=
  compileChars pattern.data 0

/-- Does the compiled pattern match a prefix of the character list,
case-insensitively? -/
def matchHere : List RAtom → List Char → Bool
  | [], _ => true
  | _ :: _, [] => false
  | RAtom.lit c :: ps, x :: xs => (x.toLower = c.toLower) && matchHere ps xs
  | RAtom.dot :: ps, _ :: xs => matchHere ps xs

/-- Unanchored search: does the pattern match starting at some position? -/
def searchFrom (p : List RAtom) : List Char → Bool
  | [] => matchHere p []
  | x :: xs => matchHere p (x :: xs) || searchFrom p xs

/-- Model of `RegExp.prototype.test` for a compiled pattern (the `i` flag
is baked into `matchHere`). -/
def regexTest (p : List RAtom) (s : String) : Bool :=
  searchFrom p s.data

/-- Model of `new RegExp(pat, "i").test(s)` in one step: `none` when the
pattern does not compile. -/
def jsTest (pat s : String) : Option Bool :=
  (compileRegex pat).map (fun p => regexTest p s)

/-- The fixed production test `/prod(uction)/i.test(env)` of line 374.
Note the group `(uction)` is not optional: the regular expression matches
exactly the strings containing "production" case-insensitively. -/
def prodTest (env : String) : Bool :=
  match compileRegex "prod(uction)" with
  | some p => regexTest p env
  | none => false

/-- One-shot deferred outcome state, modelling the native `Promise`
resolve/reject pair that `Pact` captures (index.js lines 219-250). -/
inductive DeferredState (α ε : Type) where
  | unsettled
  | resolvedWith (v : α)
  | rejectedWith (e : ε)
deriving DecidableEq

/-- Model of `Pact()` as `EzSpdy` calls it (no argument): `typeOf(undefined)` is
neither `Promise` nor `Number`, so neither the delegation branch nor the
timeout branch runs and the deferred starts unsettled. -/
def PactNew {α ε : Type} : DeferredState α ε :=
  DeferredState.unsettled

/-- Model of `deferred.resolve(v)`: settles only an unsettled deferred; a second
settle attempt is a no-op (native `Promise` semantics). -/
def deferredResolve {α ε : Type} (s : DeferredState α ε) (v : α) : DeferredState α ε :=
  match s with
  | DeferredState.unsettled => DeferredState.resolvedWith v
  | s => s

/-- Model of `deferred.reject(e)`: settles only an unsettled deferred; a second
settle attempt is a no-op (native `Promise` semantics). -/
def deferredReject {α ε : Type} (s : DeferredState α ε) (e : ε) : DeferredState α ε :=
  match s with
  | DeferredState.unsettled => DeferredState.rejectedWith e
  | s => s

/-- A `certs` table entry: `{ cert, key }`, two filesystem paths. -/
structure CertEntry where
  cert : String
  key : String
deriving DecidableEq

/-- The parsed package record; only the `certs` field matters to `EzSpdy`.
`none` models an absent (or otherwise falsy) `certs` field.  The table is
a list of key/entry pairs because `for...in` iteration order over the
plain-string keys of a JS object is insertion order. -/
structure Pkg where
  certs : Option (List (String × CertEntry))
deriving DecidableEq

/-- The `opts.package` argument: `null` (the documented default), an
already-parsed record, or a path string. -/
inductive PkgArg where
  | nullArg
  | record (p : Pkg)
  | path (s : String)

/-- The `opts` object. `port` is `undef` when the field is absent;
`env` is `none` when absent or `null`. -/
structure Opts where
  debug : Bool
  port : JSVal
  package : PkgArg
  env : Option String

/-- The default `opts` value of the parameter list:
`{ debug: false, port: 3443, package: null, env: null }`. -/
def defaultOpts : Opts :=
  { debug := false, port := JSVal.num 3443, package := PkgArg.nullArg, env := none }

/-- The relevant `process.env` variables; `none` is an unset variable. -/
structure ProcEnv where
  SSL_PORT : Option String
  SSLPORT : Option String
  SECURE_PORT : Option String
  NODE_ENV : Option String

/-- JavaScript truthiness of a possibly-absent environment string:
present and non-empty. -/
def truthyStr (o : Option String) : Bool :=
  match o with
  | none => false
  | some s => !(s = "")

/-- The filesystem as `EzSpdy` sees it: `fs.existsSync` and
`fs.readFileSync(..).toString()`. -/
structure FS where
  existsSync : String → Bool
  readFileSync : String → String

/-- Model of `path.resolve`: paths are modelled as already resolved. -/
def pathResolve (p : String) : String := p

/-- Reason recorded in a skip entry; structured counterpart of the
message strings built at lines 383, 391, 399 and 441. -/
inductive SkipReason where
  | envMismatch (environment env : String)
  | certMissing (certPath : String)
  | keyMissing (keyPath : String)
  | noPkg
deriving DecidableEq

/-- An element of the `skipped` array: `{ reason, cert, key }`. -/
structure SkipRecord where
  reason : SkipReason
  cert : String
  key : String
deriving DecidableEq

/-- The credential pair built from the two file contents. -/
structure SslCert where
  cert : String
  key : String
deriving DecidableEq

/-- The `secureServer` handle produced by `spdy.createServer(..).listen(..)`,
abstracted to the data the call receives. -/
structure Server where
  sslCert : SslCert
  port : JSVal
deriving DecidableEq

/-- The errors that can settle the deferred as a rejection: the missing
`certs` configuration error (carrying the `skipped` array its message
interpolates), a bind error from `.listen`, and a thrown invalid-regex
error caught by the surrounding `catch`. -/
inductive EzError where
  | configError (skipped : List SkipRecord)
  | bindError (msg : String)
  | regexError (pattern : String)
deriving DecidableEq

/-- Result of the `for...in` loop over `pkg.certs` (lines 378-422): a
credential pair was built and the loop `break`s, or every entry was
skipped, or the key of an entry failed to compile as a regular expression and
the loop threw.  Each outcome carries the `skipped` array at that point. -/
inductive LoopResult where
  | found (sslCert : SslCert) (skipped : List SkipRecord)
  | exhausted (skipped : List SkipRecord)
  | threw (e : EzError) (skipped : List SkipRecord)
deriving DecidableEq

/-- The loop body of lines 378-422: try each `(environment, entry)` pair in
order; a non-matching key, a missing cert file or a missing key file push
a skip record and `continue`; the first entry passing all three checks has
both files read and stops the iteration. -/
def certLoop (fsys : FS) (env : String) :
    List (String × CertEntry) → List SkipRecord → LoopResult
  | [], skipped => LoopResult.exhausted skipped
  | (environment, entry) :: rest, skipped =>
    match compileRegex environment with
    | none => LoopResult.threw (EzError.regexError environment) skipped
    | some pat =>
      if !(regexTest pat env) then
        certLoop fsys env rest
          (skipped ++ [⟨SkipReason.envMismatch environment env, entry.cert, entry.key⟩])
      else if !(fsys.existsSync (pathResolve entry.cert)) then
        certLoop fsys env rest
          (skipped ++ [⟨SkipReason.certMissing (pathResolve entry.cert), entry.cert, entry.key⟩])
      else if !(fsys.existsSync (pathResolve entry.key)) then
        certLoop fsys env rest
          (skipped ++ [⟨SkipReason.keyMissing (pathResolve entry.key), entry.cert, entry.key⟩])
      else
        LoopResult.found ⟨fsys.readFileSync entry.cert, fsys.readFileSync entry.key⟩ skipped

/-- The whole input of one `EzSpdy` invocation: the `opts` argument
(`none` models the argument being omitted entirely, so the default
parameter value applies), the process environment, the filesystem, the
result of `require`-ing a path (for the path-string configuration source),
and the error the `.listen` callback receives (`none` on a successful
bind). -/
structure EzInput where
  optsArg : Option Opts
  procEnv : ProcEnv
  fsys : FS
  requireFn : String → Pkg
  bindError : Option String

/-- Observable result of one `EzSpdy` invocation: the effective
environment name, the final `port` variable, the final `skipped` array,
and the settled state of the returned deferred. -/
structure EzResult where
  env : String
  port : JSVal
  skipped : List SkipRecord
  deferred : DeferredState (Option Server) EzError
deriving DecidableEq

/-- Line 349: the effective environment, `opts.env` when truthy, else
`process.env.NODE_ENV` when truthy, else the literal default. -/
def effectiveEnv (opts : Opts) (pe : ProcEnv) : String :=
  match opts.env with
  | some s => if s = "" then (match pe.NODE_ENV with
      | some t => if t = "" then "development" else t
      | none => "development") else s
  | none =>
    match pe.NODE_ENV with
    | some t => if t = "" then "development" else t
    | none => "development"

/-- The three environment overrides of lines 369-371: three separate `if`
statements, each assigning `port` when its variable is truthy, so a later
truthy variable overwrites an earlier one. -/
def overridePort (p : JSVal) (pe : ProcEnv) : JSVal :=
  let p1 := if truthyStr pe.SSL_PORT then JSVal.str (pe.SSL_PORT.getD "") else p
  let p2 := if truthyStr pe.SSLPORT then JSVal.str (pe.SSLPORT.getD "") else p1
  if truthyStr pe.SECURE_PORT then JSVal.str (pe.SECURE_PORT.getD "") else p2

/-- Line 374: `if (port === 3443 && /prod(uction)/i.test(env)) port = 443`. -/
def elevatePort (p : JSVal) (env : String) : JSVal :=
  if p = JSVal.num 3443 && prodTest env then JSVal.num 443 else p

/-- Lines 350 and 358-367: `opts.package` when truthy, else the default
path string, followed by
the `typeOf` dispatch — an object is used directly, a string goes through
`require(path.resolve(...))`. -/
def resolvePkg (opts : Opts) (requireFn : String → Pkg) : Pkg :=
  match opts.package with
  | PkgArg.record p => p
  | PkgArg.path s => if s = "" then requireFn "./package.json" else requireFn s
  | PkgArg.nullArg => requireFn "./package.json"

/-- The synthetic skip record pushed by the missing-`certs` branch
(lines 440-444): reason "No pkg!", with cert and key both "None". -/
def noPkgRecord : SkipRecord :=
  ⟨SkipReason.noPkg, "None", "None"⟩

/-- The `.listen(port, error => { if (error) { ... deferred.reject(error) }
deferred.resolve(secureServer) })` callback of lines 412-419: on a bind
error it rejects and then still calls resolve (which the one-shot deferred
ignores); on success it resolves with the server handle. -/
def listenSettle (d : DeferredState (Option Server) EzError)
    (bindError : Option String) (server : Server) :
    DeferredState (Option Server) EzError :=
  let d1 := match bindError with
    | some e => deferredReject d (EzError.bindError e)
    | none => d
  deferredResolve d1 (some server)

/-- The `EzSpdy` function (index.js lines 341-501), restricted to its
observable resolution outcome: effective environment and port
computation, configuration lookup, the certificate loop, and the
settlement of the returned deferred. -/
def EzSpdy (input : EzInput) : EzResult :=
  let opts := input.optsArg.getD defaultOpts
  let env := effectiveEnv opts input.procEnv
  let pkg := resolvePkg opts input.requireFn
  let port := elevatePort (overridePort opts.port input.procEnv) env
  match pkg.certs with
  | some entries =>
    match certLoop input.fsys env entries [] with
    | LoopResult.found sslCert skipped =>
      let server : Server := ⟨sslCert, port⟩
      ⟨env, port, skipped, listenSettle PactNew input.bindError server⟩
    | LoopResult.exhausted skipped =>
      ⟨env, port, skipped, deferredResolve PactNew none⟩
    | LoopResult.threw err skipped =>
      ⟨env, port, skipped, deferredReject PactNew err⟩
  | none =>
    let skipped := [noPkgRecord]
    ⟨env, port, skipped, deferredReject PactNew (EzError.configError skipped)⟩

/-- Does a candidate key match the effective environment (pattern = key)? -/
def keyMatches (k env : String) : Bool :=
  match compileRegex k with
  | some p => regexTest p env
  | none => false

/-- Does a candidate pass all three checks of the loop body? -/
def passes (fsys : FS) (env : String) (ke : String × CertEntry) : Bool :=
  keyMatches ke.1 env && fsys.existsSync (pathResolve ke.2.cert)
    && fsys.existsSync (pathResolve ke.2.key)

/-- The first table entry passing all three checks, in iteration order. -/
def firstPass (fsys : FS) (env : String) : List (String × CertEntry) → Option (String × CertEntry)
  | [] => none
  | ke :: rest => if passes fsys env ke then some ke else firstPass fsys env rest

/-- The credential pair read for an entry (both raw paths, as in the code). -/
def loadCert (fsys : FS) (e : CertEntry) : SslCert :=
  ⟨fsys.readFileSync e.cert, fsys.readFileSync e.key⟩

/-- Concrete filesystem on which every path exists; a file content is its
path with a marker suffix. -/
def fsAllFiles : FS :=
  ⟨fun _ => true, fun p => p ++ "-data"⟩

/-- Concrete filesystem with no files at all. -/
def fsNoFiles : FS :=
  ⟨fun _ => false, fun p => p ++ "-data"⟩

/-- Concrete filesystem on which exactly the given paths exist. -/
def fsOnly (paths : List String) : FS :=
  ⟨fun p => paths.contains p, fun p => p ++ "-data"⟩

/-- Concrete `require` model yielding a package without a `certs` field. -/
def requireEmpty : String → Pkg :=
  fun _ => ⟨none⟩

/-- A process environment with only `NODE_ENV` possibly set. -/
def plainEnv (nodeEnv : Option String) : ProcEnv :=
  ⟨none, none, none, nodeEnv⟩

/-- Concrete opts passing an in-memory record with the given `certs` table. -/
def optsWithTable (t : List (String × CertEntry)) : Opts :=
  ⟨false, JSVal.num 3443, PkgArg.record ⟨some t⟩, none⟩

/-- Concrete opts passing an in-memory record that lacks `certs`. -/
def optsNoCerts : Opts :=
  ⟨false, JSVal.num 3443, PkgArg.record ⟨none⟩, none⟩

/-- Concrete two-entry table whose keys both match "development". -/
def tableTwoDev : List (String × CertEntry) :=
  [("development", ⟨"a.pem", "a.key"⟩), ("dev", ⟨"b.pem", "b.key"⟩)]

theorem EzSpdy_port_eq (input : EzInput) :
    (EzSpdy input).port =
      elevatePort (overridePort (input.optsArg.getD defaultOpts).port input.procEnv)
        (effectiveEnv (input.optsArg.getD defaultOpts) input.procEnv) := by
  unfold EzSpdy
  dsimp only
  split <;> (try split) <;> rfl

theorem EzSpdy_nocerts (input : EzInput) (o : Opts)
    (h1 : input.optsArg = some o) (h2 : o.package = PkgArg.record ⟨none⟩) :
    EzSpdy input = ⟨effectiveEnv o input.procEnv,
      elevatePort (overridePort o.port input.procEnv) (effectiveEnv o input.procEnv),
      [noPkgRecord], DeferredState.rejectedWith (EzError.configError [noPkgRecord])⟩ := by
  unfold EzSpdy resolvePkg
  rw [h1]
  simp [h2, deferredReject, PactNew]

theorem EzSpdy_found (input : EzInput) (o : Opts) (entries : List (String × CertEntry))
    (ssl : SslCert) (sk : List SkipRecord)
    (h1 : input.optsArg = some o)
    (h2 : o.package = PkgArg.record ⟨some entries⟩)
    (hl : certLoop input.fsys (effectiveEnv o input.procEnv) entries [] = LoopResult.found ssl sk) :
    EzSpdy input = ⟨effectiveEnv o input.procEnv,
      elevatePort (overridePort o.port input.procEnv) (effectiveEnv o input.procEnv), sk,
      listenSettle PactNew input.bindError
        ⟨ssl, elevatePort (overridePort o.port input.procEnv) (effectiveEnv o input.procEnv)⟩⟩ := by
  unfold EzSpdy resolvePkg
  rw [h1]
  simp [h2, hl]

theorem EzSpdy_exhausted (input : EzInput) (o : Opts) (entries : List (String × CertEntry))
    (sk : List SkipRecord)
    (h1 : input.optsArg = some o)
    (h2 : o.package = PkgArg.record ⟨some entries⟩)
    (hl : certLoop input.fsys (effectiveEnv o input.procEnv) entries [] = LoopResult.exhausted sk) :
    EzSpdy input = ⟨effectiveEnv o input.procEnv,
      elevatePort (overridePort o.port input.procEnv) (effectiveEnv o input.procEnv), sk,
      DeferredState.resolvedWith none⟩ := by
  unfold EzSpdy resolvePkg
  rw [h1]
  simp [h2, hl, deferredResolve, PactNew]

theorem EzSpdy_threw (input : EzInput) (o : Opts) (entries : List (String × CertEntry))
    (err : EzError) (sk : List SkipRecord)
    (h1 : input.optsArg = some o)
    (h2 : o.package = PkgArg.record ⟨some entries⟩)
    (hl : certLoop input.fsys (effectiveEnv o input.procEnv) entries [] = LoopResult.threw err sk) :
    EzSpdy input = ⟨effectiveEnv o input.procEnv,
      elevatePort (overridePort o.port input.procEnv) (effectiveEnv o input.procEnv), sk,
      DeferredState.rejectedWith err⟩ := by
  unfold EzSpdy resolvePkg
  rw [h1]
  simp [h2, hl, deferredReject, PactNew]

theorem certLoop_firstPass (fsys : FS) (env : String) :
    ∀ (entries : List (String × CertEntry)),
      (∀ ke ∈ entries, (compileRegex ke.1).isSome = true) →
      ∀ (sk : List SkipRecord),
        (∀ ke, firstPass fsys env entries = some ke →
          ∃ sk2, certLoop fsys env entries sk = LoopResult.found (loadCert fsys ke.2) sk2)
        ∧ (firstPass fsys env entries = none →
          ∃ sk2, certLoop fsys env entries sk = LoopResult.exhausted sk2) := by
  intro entries
  induction entries with
  | nil =>
    intro _ sk
    constructor
    · intro ke h
      simp [firstPass] at h
    · intro _
      exact ⟨sk, rfl⟩
  | cons head rest ih =>
    intro hc sk
    obtain ⟨k, e⟩ := head
    obtain ⟨pat, hpat⟩ : ∃ pat, compileRegex k = some pat := by
      have h := hc (k, e) (List.mem_cons_self _ _)
      exact Option.isSome_iff_exists.mp h
    have hrest : ∀ ke ∈ rest, (compileRegex ke.1).isSome = true :=
      fun ke hke => hc ke (List.mem_cons_of_mem _ hke)
    by_cases hm : regexTest pat env = true
    · by_cases hcert : fsys.existsSync (pathResolve e.cert) = true
      · by_cases hkey : fsys.existsSync (pathResolve e.key) = true
        · have hp : passes fsys env (k, e) = true := by
            simp [passes, keyMatches, hpat, hm, hcert, hkey]
          constructor
          · intro ke h
            rw [firstPass, if_pos hp] at h
            obtain rfl : (k, e) = ke := by injection h
            refine ⟨sk, ?_⟩
            simp [certLoop, hpat, hm, hcert, hkey, loadCert]
          · intro h
            rw [firstPass, if_pos hp] at h
            exact absurd h (by simp)
        · have hp : passes fsys env (k, e) = false := by
            simp [passes, hkey]
          have hstep : certLoop fsys env ((k, e) :: rest) sk
              = certLoop fsys env rest
                  (sk ++ [⟨SkipReason.keyMissing (pathResolve e.key), e.cert, e.key⟩]) := by
            simp [certLoop, hpat, hm, hcert, hkey]
          constructor
          · intro ke h
            rw [firstPass, if_neg (by simp [hp])] at h
            rw [hstep]
            exact (ih hrest _).1 ke h
          · intro h
            rw [firstPass, if_neg (by simp [hp])] at h
            rw [hstep]
            exact (ih hrest _).2 h
      · have hp : passes fsys env (k, e) = false := by
          simp [passes, hcert]
        have hstep : certLoop fsys env ((k, e) :: rest) sk
            = certLoop fsys env rest
                (sk ++ [⟨SkipReason.certMissing (pathResolve e.cert), e.cert, e.key⟩]) := by
          simp [certLoop, hpat, hm, hcert]
        constructor
        · intro ke h
          rw [firstPass, if_neg (by simp [hp])] at h
          rw [hstep]
          exact (ih hrest _).1 ke h
        · intro h
          rw [firstPass, if_neg (by simp [hp])] at h
          rw [hstep]
          exact (ih hrest _).2 h
    · have hp : passes fsys env (k, e) = false := by
        simp [passes, keyMatches, hpat, hm]
      have hstep : certLoop fsys env ((k, e) :: rest) sk
          = certLoop fsys env rest
              (sk ++ [⟨SkipReason.envMismatch k env, e.cert, e.key⟩]) := by
        simp [certLoop, hpat, hm]
      constructor
      · intro ke h
        rw [firstPass, if_neg (by simp [hp])] at h
        rw [hstep]
        exact (ih hrest _).1 ke h
      · intro h
        rw [firstPass, if_neg (by simp [hp])] at h
        rw [hstep]
        exact (ih hrest _).2 h

/-- C1: the claim states that whenever the resolved port still equals the
base default 3443, an effective environment matching "prod" optionally
followed by "uction" (so in particular "prod" itself) elevates the port
to 443.  The code's pattern `/prod(uction)/i` makes the group mandatory,
so the environment "prod" does NOT elevate — the port stays 3443 — even
though the function's own documentation promises elevation for "prod";
"production" and "Production" do elevate. -/
theorem C1_prod_alone_not_elevated :
    (EzSpdy ⟨none, plainEnv (some "prod"), fsAllFiles, requireEmpty, none⟩).port
      = JSVal.num 3443
    ∧ (EzSpdy ⟨none, plainEnv (some "production"), fsAllFiles, requireEmpty, none⟩).port
      = JSVal.num 443
    ∧ (EzSpdy ⟨none, plainEnv (some "Production"), fsAllFiles, requireEmpty, none⟩).port
      = JSVal.num 443
    ∧ prodTest "prod" = false ∧ prodTest "production" = true := by
  decide

/-- C2 counterexample: with SSL_PORT set to "1111", SSLPORT to "2222" and
SECURE_PORT to "3333", the resolved port is the SECURE_PORT value, not
the SSL_PORT value the claim designates as the winner. -/
theorem C2_counterexample :
    (EzSpdy ⟨none, ⟨some "1111", some "2222", some "3333", none⟩,
        fsAllFiles, requireEmpty, none⟩).port = JSVal.str "3333"
    ∧ ¬((EzSpdy ⟨none, ⟨some "1111", some "2222", some "3333", none⟩,
        fsAllFiles, requireEmpty, none⟩).port = JSVal.str "1111") := by
  decide

/-- C2 (amended): the three overrides are evaluated in the fixed order
SSL_PORT, SSLPORT, SECURE_PORT, each present (non-empty) one overwriting
the port, so the LAST present one wins: SECURE_PORT when set, else
SSLPORT, else SSL_PORT; with all three set the resolved port equals the
SECURE_PORT value. -/
theorem C2_last_override_wins (input : EzInput) :
    (∀ s, input.procEnv.SECURE_PORT = some s → ¬(s = "") →
        (EzSpdy input).port = JSVal.str s)
    ∧ (truthyStr input.procEnv.SECURE_PORT = false →
        ∀ s, input.procEnv.SSLPORT = some s → ¬(s = "") →
        (EzSpdy input).port = JSVal.str s)
    ∧ (truthyStr input.procEnv.SECURE_PORT = false →
        truthyStr input.procEnv.SSLPORT = false →
        ∀ s, input.procEnv.SSL_PORT = some s → ¬(s = "") →
        (EzSpdy input).port = JSVal.str s) := by
  refine ⟨?_, ?_, ?_⟩
  · intro s hsec hs
    rw [EzSpdy_port_eq]
    simp [overridePort, hsec, truthyStr, hs, elevatePort]
  · intro hqf s hssl hs
    rw [EzSpdy_port_eq]
    have ht : truthyStr (some s) = true := by simp [truthyStr, hs]
    simp [overridePort, hqf, hssl, ht, elevatePort]
  · intro hqf hpf s hssl hs
    rw [EzSpdy_port_eq]
    have ht : truthyStr (some s) = true := by simp [truthyStr, hs]
    simp [overridePort, hqf, hpf, hssl, ht, elevatePort]

/-- C2 witness: the amended priority applied at concrete environments. -/
theorem C2_last_override_wins_witness :
    (EzSpdy ⟨none, ⟨some "1111", some "2222", some "3333", none⟩,
        fsAllFiles, requireEmpty, none⟩).port = JSVal.str "3333"
    ∧ (EzSpdy ⟨none, ⟨some "1111", some "2222", none, none⟩,
        fsAllFiles, requireEmpty, none⟩).port = JSVal.str "2222"
    ∧ (EzSpdy ⟨none, ⟨some "1111", none, none, none⟩,
        fsAllFiles, requireEmpty, none⟩).port = JSVal.str "1111" :=
  ⟨(C2_last_override_wins _).1 "3333" rfl (by decide),
   (C2_last_override_wins _).2.1 (by decide) "2222" rfl (by decide),
   (C2_last_override_wins _).2.2 (by decide) (by decide) "1111" rfl (by decide)⟩

/-- C3: with every table key compiling as a pattern, resolution selects at
most one entry — exactly the first entry in iteration order that passes
all three checks — and the deferred is settled by the single bind attempt
for that entry, later passing entries being ignored; if no entry passes,
the deferred resolves with the null no-match sentinel. -/
theorem C3_first_match_only (input : EzInput) (o : Opts)
    (entries : List (String × CertEntry))
    (h1 : input.optsArg = some o)
    (h2 : o.package = PkgArg.record ⟨some entries⟩)
    (hc : ∀ ke ∈ entries, (compileRegex ke.1).isSome = true) :
    (∀ ke, firstPass input.fsys (effectiveEnv o input.procEnv) entries = some ke →
        (EzSpdy input).deferred
          = listenSettle PactNew input.bindError
              ⟨loadCert input.fsys ke.2, (EzSpdy input).port⟩)
    ∧ (firstPass input.fsys (effectiveEnv o input.procEnv) entries = none →
        (EzSpdy input).deferred = DeferredState.resolvedWith none) := by
  constructor
  · intro ke h
    obtain ⟨sk2, hl⟩ :=
      (certLoop_firstPass input.fsys (effectiveEnv o input.procEnv) entries hc []).1 ke h
    rw [EzSpdy_found input o entries (loadCert input.fsys ke.2) sk2 h1 h2 hl]
  · intro h
    obtain ⟨sk2, hl⟩ :=
      (certLoop_firstPass input.fsys (effectiveEnv o input.procEnv) entries hc []).2 h
    rw [EzSpdy_exhausted input o entries sk2 h1 h2 hl]

/-- C3 witness: a two-entry table whose keys both match "development" —
the first entry is bound (its file contents are served), and an
all-mismatching environment yields the null no-match resolution. -/
theorem C3_first_match_only_witness :
    (EzSpdy ⟨some (optsWithTable tableTwoDev), plainEnv none,
        fsAllFiles, requireEmpty, none⟩).deferred
      = DeferredState.resolvedWith
          (some ⟨⟨"a.pem-data", "a.key-data"⟩, JSVal.num 3443⟩)
    ∧ (EzSpdy ⟨some (optsWithTable tableTwoDev), plainEnv (some "staging"),
        fsAllFiles, requireEmpty, none⟩).deferred
      = DeferredState.resolvedWith none := by
  constructor
  · have h := (C3_first_match_only
        ⟨some (optsWithTable tableTwoDev), plainEnv none, fsAllFiles, requireEmpty, none⟩
        (optsWithTable tableTwoDev) tableTwoDev rfl rfl (by decide)).1
        ("development", ⟨"a.pem", "a.key"⟩) (by decide)
    rw [h]
    decide
  · exact (C3_first_match_only
        ⟨some (optsWithTable tableTwoDev), plainEnv (some "staging"), fsAllFiles,
          requireEmpty, none⟩
        (optsWithTable tableTwoDev) tableTwoDev rfl rfl (by decide)).2 (by decide)

/-- C4: a candidate whose key matches the effective environment but whose
cert file (respectively key file) does not exist is recorded as a skip
and the loop continues with the next candidate instead of failing; and
when the loop exhausts all candidates the deferred resolves with the
null no-match sentinel — a resolution, not a rejection. -/
theorem C4_missing_files_soft_skip :
    (∀ (fsys : FS) (env k : String) (e : CertEntry)
        (rest : List (String × CertEntry)) (sk : List SkipRecord),
        (compileRegex k).isSome = true → keyMatches k env = true →
        fsys.existsSync (pathResolve e.cert) = false →
        certLoop fsys env ((k, e) :: rest) sk
          = certLoop fsys env rest
              (sk ++ [⟨SkipReason.certMissing (pathResolve e.cert), e.cert, e.key⟩]))
    ∧ (∀ (fsys : FS) (env k : String) (e : CertEntry)
        (rest : List (String × CertEntry)) (sk : List SkipRecord),
        (compileRegex k).isSome = true → keyMatches k env = true →
        fsys.existsSync (pathResolve e.cert) = true →
        fsys.existsSync (pathResolve e.key) = false →
        certLoop fsys env ((k, e) :: rest) sk
          = certLoop fsys env rest
              (sk ++ [⟨SkipReason.keyMissing (pathResolve e.key), e.cert, e.key⟩]))
    ∧ (∀ (input : EzInput) (o : Opts) (entries : List (String × CertEntry))
        (sk : List SkipRecord),
        input.optsArg = some o → o.package = PkgArg.record ⟨some entries⟩ →
        certLoop input.fsys (effectiveEnv o input.procEnv) entries []
          = LoopResult.exhausted sk →
        (EzSpdy input).deferred = DeferredState.resolvedWith none) := by
  refine ⟨?_, ?_, ?_⟩
  · intro fsys env k e rest sk hsome hkm hcert
    obtain ⟨pat, hpat⟩ := Option.isSome_iff_exists.mp hsome
    have hm : regexTest pat env = true := by simpa [keyMatches, hpat] using hkm
    simp [certLoop, hpat, hm, hcert]
  · intro fsys env k e rest sk hsome hkm hcert hkey
    obtain ⟨pat, hpat⟩ := Option.isSome_iff_exists.mp hsome
    have hm : regexTest pat env = true := by simpa [keyMatches, hpat] using hkm
    simp [certLoop, hpat, hm, hcert, hkey]
  · intro input o entries sk h1 h2 hl
    rw [EzSpdy_exhausted input o entries sk h1 h2 hl]

/-- C4 witness: a matching entry with a missing cert file is skipped with
the recorded reason, and the run over a table of such candidates settles
as null no-match. -/
theorem C4_missing_files_soft_skip_witness :
    certLoop fsNoFiles "development" [("development", ⟨"a.pem", "a.key"⟩)] []
      = certLoop fsNoFiles "development" []
          [⟨SkipReason.certMissing "a.pem", "a.pem", "a.key"⟩]
    ∧ certLoop (fsOnly ["a.pem"]) "development" [("development", ⟨"a.pem", "a.key"⟩)] []
      = certLoop (fsOnly ["a.pem"]) "development" []
          [⟨SkipReason.keyMissing "a.key", "a.pem", "a.key"⟩]
    ∧ (EzSpdy ⟨some (optsWithTable [("development", ⟨"a.pem", "a.key"⟩)]),
        plainEnv none, fsNoFiles, requireEmpty, none⟩).deferred
      = DeferredState.resolvedWith none :=
  ⟨C4_missing_files_soft_skip.1 fsNoFiles "development" "development"
      ⟨"a.pem", "a.key"⟩ [] [] (by decide) (by decide) (by decide),
   C4_missing_files_soft_skip.2.1 (fsOnly ["a.pem"]) "development" "development"
      ⟨"a.pem", "a.key"⟩ [] [] (by decide) (by decide) (by decide) (by decide),
   C4_missing_files_soft_skip.2.2
      ⟨some (optsWithTable [("development", ⟨"a.pem", "a.key"⟩)]), plainEnv none,
        fsNoFiles, requireEmpty, none⟩
      (optsWithTable [("development", ⟨"a.pem", "a.key"⟩)])
      [("development", ⟨"a.pem", "a.key"⟩)]
      [⟨SkipReason.certMissing "a.pem", "a.pem", "a.key"⟩]
      rfl rfl (by decide)⟩

/-- C5 counterexample: with a configuration record lacking `certs`, the
outcome is indeed a rejection, but the skipped list its message
interpolates contains ONE synthetic record (the "No pkg!" entry), not the
zero records the claim states. -/
theorem C5_counterexample :
    (EzSpdy ⟨some optsNoCerts, plainEnv none, fsAllFiles, requireEmpty, none⟩).deferred
      = DeferredState.rejectedWith (EzError.configError [noPkgRecord])
    ∧ (EzSpdy ⟨some optsNoCerts, plainEnv none, fsAllFiles, requireEmpty, none⟩).skipped.length
      = 1
    ∧ ¬((EzSpdy ⟨some optsNoCerts, plainEnv none, fsAllFiles,
          requireEmpty, none⟩).skipped.length = 0) := by
  decide

/-- C5 (amended): a configuration record lacking a `certs` field rejects
with a descriptive error whose message interpolates the skipped list;
that list holds exactly one record — the synthetic "No pkg!" record with
cert and key both "None" — and zero records derived from table
candidates, since no candidate was ever attempted; the NoMatch case
instead settles successfully. -/
theorem C5_missing_certs_is_failure (input : EzInput) (o : Opts)
    (h1 : input.optsArg = some o)
    (h2 : o.package = PkgArg.record ⟨none⟩) :
    (EzSpdy input).deferred
      = DeferredState.rejectedWith (EzError.configError (EzSpdy input).skipped)
    ∧ (EzSpdy input).skipped = [noPkgRecord]
    ∧ (EzSpdy input).skipped.length = 1
    ∧ (∀ r ∈ (EzSpdy input).skipped, r.reason = SkipReason.noPkg) := by
  rw [EzSpdy_nocerts input o h1 h2]
  refine ⟨rfl, rfl, rfl, ?_⟩
  intro r hr
  rw [List.mem_singleton] at hr
  rw [hr]
  rfl

/-- C5 witness: the amended statement at a concrete record without
`certs`. -/
theorem C5_missing_certs_is_failure_witness :
    (EzSpdy ⟨some optsNoCerts, plainEnv (some "production"), fsAllFiles,
        requireEmpty, none⟩).deferred
      = DeferredState.rejectedWith
          (EzError.configError
            (EzSpdy ⟨some optsNoCerts, plainEnv (some "production"), fsAllFiles,
              requireEmpty, none⟩).skipped)
    ∧ (EzSpdy ⟨some optsNoCerts, plainEnv (some "production"), fsAllFiles,
        requireEmpty, none⟩).skipped = [noPkgRecord] :=
  ⟨(C5_missing_certs_is_failure
      ⟨some optsNoCerts, plainEnv (some "production"), fsAllFiles, requireEmpty, none⟩
      optsNoCerts rfl rfl).1,
   (C5_missing_certs_is_failure
      ⟨some optsNoCerts, plainEnv (some "production"), fsAllFiles, requireEmpty, none⟩
      optsNoCerts rfl rfl).2.1⟩

/-- C6: the three outcomes are delivered distinguishably through the
deferred: all-candidates-skipped resolves with the explicit null
sentinel, a missing-config error or a bind error rejects, and a
successful bind resolves with the listener handle; null-resolution,
handle-resolution and rejection are pairwise distinct settlements. -/
theorem C6_outcomes_distinguishable (input : EzInput) (o : Opts)
    (entries : List (String × CertEntry))
    (h1 : input.optsArg = some o) :
    (o.package = PkgArg.record ⟨none⟩ →
        (EzSpdy input).deferred
          = DeferredState.rejectedWith (EzError.configError [noPkgRecord]))
    ∧ (∀ sk, o.package = PkgArg.record ⟨some entries⟩ →
        certLoop input.fsys (effectiveEnv o input.procEnv) entries []
          = LoopResult.exhausted sk →
        (EzSpdy input).deferred = DeferredState.resolvedWith none)
    ∧ (∀ ssl sk m, o.package = PkgArg.record ⟨some entries⟩ →
        certLoop input.fsys (effectiveEnv o input.procEnv) entries []
          = LoopResult.found ssl sk →
        input.bindError = some m →
        (EzSpdy input).deferred = DeferredState.rejectedWith (EzError.bindError m))
    ∧ (∀ ssl sk, o.package = PkgArg.record ⟨some entries⟩ →
        certLoop input.fsys (effectiveEnv o input.procEnv) entries []
          = LoopResult.found ssl sk →
        input.bindError = none →
        (EzSpdy input).deferred
          = DeferredState.resolvedWith (some ⟨ssl, (EzSpdy input).port⟩))
    ∧ (∀ (srv : Server) (e : EzError),
        ¬((DeferredState.resolvedWith none : DeferredState (Option Server) EzError)
            = DeferredState.resolvedWith (some srv))
        ∧ ¬((DeferredState.resolvedWith none : DeferredState (Option Server) EzError)
            = DeferredState.rejectedWith e)
        ∧ ¬((DeferredState.resolvedWith (some srv) : DeferredState (Option Server) EzError)
            = DeferredState.rejectedWith e)) := by
  refine ⟨?_, ?_, ?_, ?_, ?_⟩
  · intro h2
    rw [EzSpdy_nocerts input o h1 h2]
  · intro sk h2 hl
    rw [EzSpdy_exhausted input o entries sk h1 h2 hl]
  · intro ssl sk m h2 hl hb
    rw [EzSpdy_found input o entries ssl sk h1 h2 hl]
    simp [listenSettle, hb, PactNew, deferredReject, deferredResolve]
  · intro ssl sk h2 hl hb
    rw [EzSpdy_found input o entries ssl sk h1 h2 hl]
    simp [listenSettle, hb, PactNew, deferredResolve]
  · intro srv e
    refine ⟨by simp, by simp, by simp⟩

/-- C6 witness: the four settlements at concrete inputs. -/
theorem C6_outcomes_distinguishable_witness :
    (EzSpdy ⟨some optsNoCerts, plainEnv none, fsAllFiles, requireEmpty, none⟩).deferred
      = DeferredState.rejectedWith (EzError.configError [noPkgRecord])
    ∧ (EzSpdy ⟨some (optsWithTable tableTwoDev), plainEnv (some "staging"),
        fsAllFiles, requireEmpty, none⟩).deferred
      = DeferredState.resolvedWith none
    ∧ (EzSpdy ⟨some (optsWithTable tableTwoDev), plainEnv none,
        fsAllFiles, requireEmpty, some "EADDRINUSE"⟩).deferred
      = DeferredState.rejectedWith (EzError.bindError "EADDRINUSE")
    ∧ (EzSpdy ⟨some (optsWithTable tableTwoDev), plainEnv none,
        fsAllFiles, requireEmpty, none⟩).deferred
      = DeferredState.resolvedWith
          (some ⟨⟨"a.pem-data", "a.key-data"⟩,
            (EzSpdy ⟨some (optsWithTable tableTwoDev), plainEnv none,
              fsAllFiles, requireEmpty, none⟩).port⟩) := by
  refine ⟨?_, ?_, ?_, ?_⟩
  · exact (C6_outcomes_distinguishable
      ⟨some optsNoCerts, plainEnv none, fsAllFiles, requireEmpty, none⟩
      optsNoCerts tableTwoDev rfl).1 rfl
  · exact (C6_outcomes_distinguishable
      ⟨some (optsWithTable tableTwoDev), plainEnv (some "staging"), fsAllFiles,
        requireEmpty, none⟩
      (optsWithTable tableTwoDev) tableTwoDev rfl).2.1
      [⟨SkipReason.envMismatch "development" "staging", "a.pem", "a.key"⟩,
       ⟨SkipReason.envMismatch "dev" "staging", "b.pem", "b.key"⟩]
      rfl (by decide)
  · exact (C6_outcomes_distinguishable
      ⟨some (optsWithTable tableTwoDev), plainEnv none, fsAllFiles, requireEmpty,
        some "EADDRINUSE"⟩
      (optsWithTable tableTwoDev) tableTwoDev rfl).2.2.1
      ⟨"a.pem-data", "a.key-data"⟩ [] "EADDRINUSE" rfl (by decide) rfl
  · exact (C6_outcomes_distinguishable
      ⟨some (optsWithTable tableTwoDev), plainEnv none, fsAllFiles, requireEmpty, none⟩
      (optsWithTable tableTwoDev) tableTwoDev rfl).2.2.2.1
      ⟨"a.pem-data", "a.key-data"⟩ [] rfl (by decide) rfl

/-- C7: the match treats the table key as the case-insensitive pattern and
tests it against the effective environment name, in exactly that
direction — key "prod" matches name "production", while key
"production-east" does not match name "production" — and a non-matching
key pushes an environment-mismatch skip record and continues. -/
theorem C7_key_is_the_pattern :
    (∀ (fsys : FS) (env k : String) (e : CertEntry)
        (rest : List (String × CertEntry)) (sk : List SkipRecord),
        (compileRegex k).isSome = true → keyMatches k env = false →
        certLoop fsys env ((k, e) :: rest) sk
          = certLoop fsys env rest
              (sk ++ [⟨SkipReason.envMismatch k env, e.cert, e.key⟩]))
    ∧ keyMatches "prod" "production" = true
    ∧ keyMatches "production-east" "production" = false := by
  refine ⟨?_, by decide, by decide⟩
  intro fsys env k e rest sk hsome hkm
  obtain ⟨pat, hpat⟩ := Option.isSome_iff_exists.mp hsome
  have hm : regexTest pat env = false := by simpa [keyMatches, hpat] using hkm
  simp [certLoop, hpat, hm]

/-- C7 witness: the mismatch skip step at a concrete table. -/
theorem C7_key_is_the_pattern_witness :
    certLoop fsAllFiles "production" [("production-east", ⟨"a.pem", "a.key"⟩)] []
      = certLoop fsAllFiles "production" []
          [⟨SkipReason.envMismatch "production-east" "production", "a.pem", "a.key"⟩] :=
  C7_key_is_the_pattern.1 fsAllFiles "production" "production-east"
    ⟨"a.pem", "a.key"⟩ [] [] (by decide) (by decide)

/-- C8: the deferred settles exactly once — a resolve or reject on an
already settled deferred is a no-op that leaves the settled outcome
unchanged — and in the bind-error path, where reject(error) is followed
by an unconditional resolve(secureServer), the observable outcome
remains the rejection, also through `EzSpdy` itself. -/
theorem C8_settles_exactly_once :
    (∀ (s : DeferredState (Option Server) EzError) v e,
        ¬(s = DeferredState.unsettled) →
        deferredResolve s v = s ∧ deferredReject s e = s)
    ∧ (∀ (d : DeferredState (Option Server) EzError) m srv,
        listenSettle d (some m) srv
          = deferredResolve (deferredReject d (EzError.bindError m)) (some srv))
    ∧ (∀ (m : String) (srv : Server),
        listenSettle PactNew (some m) srv
          = DeferredState.rejectedWith (EzError.bindError m))
    ∧ (∀ (input : EzInput) (o : Opts) (entries : List (String × CertEntry))
        (ssl : SslCert) (sk : List SkipRecord) (m : String),
        input.optsArg = some o → o.package = PkgArg.record ⟨some entries⟩ →
        certLoop input.fsys (effectiveEnv o input.procEnv) entries []
          = LoopResult.found ssl sk →
        input.bindError = some m →
        (EzSpdy input).deferred
          = DeferredState.rejectedWith (EzError.bindError m)) := by
  refine ⟨?_, ?_, ?_, ?_⟩
  · intro s v e hs
    cases s with
    | unsettled => exact absurd rfl hs
    | resolvedWith v2 => exact ⟨rfl, rfl⟩
    | rejectedWith e2 => exact ⟨rfl, rfl⟩
  · intro d m srv
    rfl
  · intro m srv
    rfl
  · intro input o entries ssl sk m h1 h2 hl hb
    rw [EzSpdy_found input o entries ssl sk h1 h2 hl]
    simp [listenSettle, hb, PactNew, deferredReject, deferredResolve]

/-- C8 witness: a settled deferred ignores later settles, and the
bind-error run of `EzSpdy` stays rejected despite the trailing resolve. -/
theorem C8_settles_exactly_once_witness :
    (deferredResolve
        (DeferredState.rejectedWith (EzError.bindError "EADDRINUSE")
          : DeferredState (Option Server) EzError)
        none
      = DeferredState.rejectedWith (EzError.bindError "EADDRINUSE"))
    ∧ (EzSpdy ⟨some (optsWithTable tableTwoDev), plainEnv none,
        fsAllFiles, requireEmpty, some "EADDRINUSE"⟩).deferred
      = DeferredState.rejectedWith (EzError.bindError "EADDRINUSE") :=
  ⟨(C8_settles_exactly_once.1
      (DeferredState.rejectedWith (EzError.bindError "EADDRINUSE")) none
      (EzError.bindError "EADDRINUSE") (by decide)).1,
   C8_settles_exactly_once.2.2.2
      ⟨some (optsWithTable tableTwoDev), plainEnv none, fsAllFiles, requireEmpty,
        some "EADDRINUSE"⟩
      (optsWithTable tableTwoDev) tableTwoDev ⟨"a.pem-data", "a.key-data"⟩ []
      "EADDRINUSE" rfl rfl (by decide) rfl⟩

/-- C9: the documented option defaults apply only when the opts argument
is omitted entirely; a call passing an opts object without a port field
(and with no port environment variable set) resolves the port to
undefined rather than 3443, so the production elevation rule — which
requires the port to equal 3443 — never fires for such calls, whatever
the environment; an omitted opts with a non-production-matching
environment does resolve the port to the default 3443. -/
theorem C9_defaults_need_omitted_opts (input : EzInput) (o : Opts)
    (hs : truthyStr input.procEnv.SSL_PORT = false)
    (hp : truthyStr input.procEnv.SSLPORT = false)
    (hq : truthyStr input.procEnv.SECURE_PORT = false) :
    (input.optsArg = some o → o.port = JSVal.undef →
        (EzSpdy input).port = JSVal.undef
        ∧ ¬((EzSpdy input).port = JSVal.num 443)
        ∧ ¬((EzSpdy input).port = JSVal.num 3443))
    ∧ (input.optsArg = none →
        prodTest (effectiveEnv defaultOpts input.procEnv) = false →
        (EzSpdy input).port = JSVal.num 3443) := by
  have hov : ∀ p, overridePort p input.procEnv = p := by
    intro p
    simp [overridePort, hs, hp, hq]
  constructor
  · intro h1 hport
    rw [EzSpdy_port_eq, h1]
    simp only [Option.getD_some, hov, hport]
    refine ⟨by simp [elevatePort], by simp [elevatePort], by simp [elevatePort]⟩
  · intro h1 hprod
    rw [EzSpdy_port_eq, h1]
    simp only [Option.getD_none, hov]
    have hdp : defaultOpts.port = JSVal.num 3443 := rfl
    rw [hdp]
    simp [elevatePort, hprod]

/-- C9 witness: opts lacking a port field leaves the port undefined even
in a production environment, while an omitted opts argument yields the
default 3443 in development. -/
theorem C9_defaults_need_omitted_opts_witness :
    (EzSpdy ⟨some ⟨true, JSVal.undef, PkgArg.nullArg, none⟩,
        plainEnv (some "production"), fsAllFiles, requireEmpty, none⟩).port
      = JSVal.undef
    ∧ (EzSpdy ⟨none, plainEnv none, fsAllFiles, requireEmpty, none⟩).port
      = JSVal.num 3443 :=
  ⟨((C9_defaults_need_omitted_opts
      ⟨some ⟨true, JSVal.undef, PkgArg.nullArg, none⟩, plainEnv (some "production"),
        fsAllFiles, requireEmpty, none⟩
      ⟨true, JSVal.undef, PkgArg.nullArg, none⟩
      (by decide) (by decide) (by decide)).1 rfl rfl).1,
   (C9_defaults_need_omitted_opts
      ⟨none, plainEnv none, fsAllFiles, requireEmpty, none⟩
      defaultOpts (by decide) (by decide) (by decide)).2 rfl (by decide)⟩

/-- C10: a table key is compiled as an unescaped pattern, so
metacharacters keep their pattern meaning — the key "work.company.com"
matches "workXcompanyXcom", the dot standing for an arbitrary character —
and a key that is not a valid pattern makes the loop throw, which the
surrounding catch turns into a rejection of the deferred. -/
theorem C10_keys_compiled_as_patterns :
    jsTest "work.company.com" "workXcompanyXcom" = some true
    ∧ jsTest "work.company.com" "work-company-com" = some true
    ∧ compileRegex "[" = none
    ∧ (∀ (fsys : FS) (env k : String) (e : CertEntry)
        (rest : List (String × CertEntry)) (sk : List SkipRecord),
        compileRegex k = none →
        certLoop fsys env ((k, e) :: rest) sk
          = LoopResult.threw (EzError.regexError k) sk)
    ∧ (∀ (input : EzInput) (o : Opts) (entries : List (String × CertEntry))
        (err : EzError) (sk : List SkipRecord),
        input.optsArg = some o → o.package = PkgArg.record ⟨some entries⟩ →
        certLoop input.fsys (effectiveEnv o input.procEnv) entries []
          = LoopResult.threw err sk →
        (EzSpdy input).deferred = DeferredState.rejectedWith err) := by
  refine ⟨by decide, by decide, by decide, ?_, ?_⟩
  · intro fsys env k e rest sk hk
    simp [certLoop, hk]
  · intro input o entries err sk h1 h2 hl
    rw [EzSpdy_threw input o entries err sk h1 h2 hl]

/-- C10 witness: an invalid key rejects the deferred with the thrown
error at a concrete table. -/
theorem C10_keys_compiled_as_patterns_witness :
    certLoop fsAllFiles "development" [("[", ⟨"a.pem", "a.key"⟩)] []
      = LoopResult.threw (EzError.regexError "[") []
    ∧ (EzSpdy ⟨some (optsWithTable [("[", ⟨"a.pem", "a.key"⟩)]), plainEnv none,
        fsAllFiles, requireEmpty, none⟩).deferred
      = DeferredState.rejectedWith (EzError.regexError "[") :=
  ⟨C10_keys_compiled_as_patterns.2.2.2.1 fsAllFiles "development" "["
      ⟨"a.pem", "a.key"⟩ [] [] (by decide),
   C10_keys_compiled_as_patterns.2.2.2.2
      ⟨some (optsWithTable [("[", ⟨"a.pem", "a.key"⟩)]), plainEnv none, fsAllFiles,
        requireEmpty, none⟩
      (optsWithTable [("[", ⟨"a.pem", "a.key"⟩)])
      [("[", ⟨"a.pem", "a.key"⟩)] (EzError.regexError "[") []
      rfl rfl (by decide)⟩
